import Mathlib

/-!
Verification development for the omnibook-backend document query service
(src/app.py): a Flask application that uploads a document, chunks it with
SentenceSplitter(chunk_size=512, chunk_overlap=20), embeds the chunks,
builds a VectorStoreIndex, persists it to PERSIST_DIR, and answers queries
through a process-wide `query_engine` handle that is rebound by
`load_query_engine` after every successful upload.

The llama_index library internals (SentenceSplitter, the embedding
capability, VectorStoreIndex search, StorageContext persist/load, answer
synthesis) are not part of the repository; they are modelled from the
spec's descriptions (sections 4.1, 4.2, 6) with executable definitions.
The glue logic itself — `load_query_engine`, `index_file`,
`handle_upload`, `handle_query`, the global `query_engine` binding and the
on-disk snapshot files — is translated directly from src/app.py.
-/

namespace Omnibook

/-- A chunk ("node") of a source document: unique id, owning document id,
text content, and the chunk size / overlap parameters used to produce it
(spec section 3, Node attributes). -/
structure Node where
  id : Nat
  docId : String
  text : String
  chunkSize : Nat
  overlap : Nat
deriving DecidableEq

/-- A document: source identifier (its file path) plus raw text. -/
structure Document where
  docId : String
  text : String
deriving DecidableEq

/-- Modelled from the spec: the SentenceSplitter chunker is llama_index
library code, not in src/. Spec 4.1: splits text into segments of at most
`chunkSize` units with `overlap` units shared between consecutive
segments; deterministic; empty input yields zero nodes. Node ids are
assigned sequentially from 0 within one build. -/
def chunkDoc (chunkSize overlap : Nat) (d : Document) : List Node :=
  let step := chunkSize - overlap
  let src := d.text.toList
  let n := (src.length + step - 1) / step
  (List.range n).map (fun i =>
    { id := i
      docId := d.docId
      text := String.mk ((src.drop (i * step)).take chunkSize)
      chunkSize := chunkSize
      overlap := overlap })

/-- Modelled from the spec: the external Embedder capability
(`embed(text) → vector of float, fixed dimension per deployment`,
spec section 6) is not in src/. Deterministic executable model with fixed
dimension 2, over integers. -/
def embedText (s : String) : List Int :=
  [Int.ofNat s.length, 1]

/-- The in-memory vector store: the ordered list of (Node, Embedding)
pairs, in insertion order (spec section 3, VectorStore). -/
structure VecStore where
  entries : List (Node × List Int)
deriving DecidableEq

/-- Modelled from the spec: the similarity metric of the underlying
library's vector store (spec 4.2 / 9: library default, cosine-like);
executable integer dot product stands in for it. The round-trip and
containment claims proved below do not depend on the particular metric. -/
def similarity (q v : List Int) : Int :=
  (List.zipWith (fun a b => a * b) q v).sum

/-- Stable ranked insertion: `x` is placed before the first element with a
strictly smaller score, so among equal scores the earlier-inserted element
stays first. -/
def insertRanked (x : Node × Int) : List (Node × Int) → List (Node × Int)
  | [] => [x]
  | y :: ys => if y.2 < x.2 then x :: y :: ys else y :: insertRanked x ys

/-- Rank a scored list by descending score, ties broken by original
(insertion) order. -/
def rankBySim (l : List (Node × Int)) : List (Node × Int) :=
  l.foldl (fun acc x => insertRanked x acc) []

/-- Modelled from the spec: nearest-neighbour search of the library's
vector store (spec 4.2): score every stored embedding against the query
vector, order by descending similarity with ties broken by insertion
order, return the first `topK`. -/
def VecStore.search (s : VecStore) (q : List Int) (topK : Nat) :
    List (Node × Int) :=
  (rankBySim (s.entries.map (fun e => (e.1, similarity q e.2)))).take topK

/-- Modelled from the spec: the persisted snapshot layout (spec section
6): a node store (docstore.json) recording the nodes, and a vector store
file recording, per node id, its embedding; the pairing between the two is
by node id. -/
structure Snapshot where
  docstore : List Node
  vectors : List (Nat × List Int)
deriving DecidableEq

/-- Serialize a store to its snapshot: the node list and the id-keyed
vector list (spec section 6 layout). -/
def persistSnapshot (s : VecStore) : Snapshot :=
  { docstore := s.entries.map Prod.fst
    vectors := s.entries.map (fun e => (e.1.id, e.2)) }

/-- Look up the embedding recorded for a node id in the vector file. -/
def lookupVec (id : Nat) : List (Nat × List Int) → Option (List Int)
  | [] => none
  | p :: rest => if p.1 = id then some p.2 else lookupVec id rest

/-- Pair every node of the docstore with its vector by node id; `none`
(a structurally invalid snapshot) if some node has no vector. -/
def pairNodes (vs : List (Nat × List Int)) : List Node →
    Option (List (Node × List Int))
  | [] => some []
  | n :: ns =>
    match lookupVec n.id vs, pairNodes vs ns with
    | some v, some rest => some ((n, v) :: rest)
    | _, _ => none

/-- Modelled from the spec: `load_index_from_storage` reconstructs a store
from the snapshot files, failing on a structurally invalid snapshot
(spec 4.2 `load`). -/
def loadSnapshot (snap : Snapshot) : Option VecStore :=
  (pairNodes snap.vectors snap.docstore).map VecStore.mk

/-- Chunk size hard-coded at the SentenceSplitter call in `index_file`
(src/app.py line 74). -/
def indexFileChunkSize : Nat := 512

/-- Chunk overlap hard-coded at the SentenceSplitter call in `index_file`
(src/app.py line 74). -/
def indexFileChunkOverlap : Nat := 20

/-- The in-memory index `index_file` builds from a document: parse the
document into nodes with the hard-coded 512/20 parameters, embed each
node, build a fresh `VectorStoreIndex(nodes)` (src/app.py lines 74-78). -/
def buildStore (d : Document) : VecStore :=
  ⟨(chunkDoc indexFileChunkSize indexFileChunkOverlap d).map
    (fun n => (n, embedText n.text))⟩

/-- The persistence directory PERSIST_DIR as the two snapshot files the
code reads and writes: the docstore file (docstore.json, whose existence
`load_query_engine` checks) and the vector store file. `none` = the file
does not exist. -/
structure Disk where
  docstoreFile : Option (List Node)
  vectorFile : Option (List (Nat × List Int))
deriving DecidableEq

/-- A query engine handle: `index.as_query_engine(similarity_top_k=5)`
binds the loaded store with top-K fixed at 5 (src/app.py line 53). -/
structure Engine where
  store : VecStore
  topK : Nat
deriving DecidableEq

/-- The process state: the persistence directory plus the global
`query_engine` variable (src/app.py line 40), `none` until a successful
load. -/
structure AppState where
  disk : Disk
  engine : Option Engine
deriving DecidableEq

/-- The state at process start: no snapshot files, `query_engine = None`. -/
def initState : AppState := ⟨⟨none, none⟩, none⟩

/-- `load_query_engine` (src/app.py lines 42-62): if docstore.json does
not exist, print and return False; otherwise try to load the index and
bind `query_engine = index.as_query_engine(similarity_top_k=5)`, catching
any exception and returning False. `loadExc` injects an environment
exception raised by the library inside the try block (caught at line 57);
a missing vector file or a structurally invalid snapshot likewise raises
and is caught. Returns the updated state and the boolean result. -/
def load_query_engine (loadExc : Bool) (st : AppState) : AppState × Bool :=
  match st.disk.docstoreFile with
  | none => (st, false)
  | some nds =>
    if loadExc then (st, false)
    else
      match st.disk.vectorFile with
      | none => (st, false)
      | some vs =>
        match loadSnapshot ⟨nds, vs⟩ with
        | none => (st, false)
        | some s => ({ st with engine := some ⟨s, 5⟩ }, true)

/-- Where a run of `index_file` stops (src/app.py lines 64-86): it either
completes, or an exception (reader, chunker, embedding) is raised before
the persist call at line 81, or persistence itself fails partway — the
persist writes directly into PERSIST_DIR file by file, so a mid-persist
failure has already replaced the docstore file but not the vector file. -/
inductive BuildOutcome
  | ok
  | failBeforePersist
  | failMidPersist
deriving DecidableEq

/-- `index_file` (src/app.py lines 64-86): build the index from the file
and persist it with `index.storage_context.persist(persist_dir=PERSIST_DIR)`
— written in place, no temporary location and swap. Returns the disk
after the run and whether it completed (an exception is re-raised at line
86, surfacing as False to the caller's except block). -/
def index_file (d : Document) (oc : BuildOutcome) (disk : Disk) :
    Disk × Bool :=
  match oc with
  | .failBeforePersist => (disk, false)
  | .failMidPersist =>
    ({ disk with docstoreFile := some (persistSnapshot (buildStore d)).docstore },
     false)
  | .ok =>
    ({ docstoreFile := some (persistSnapshot (buildStore d)).docstore
       vectorFile := some (persistSnapshot (buildStore d)).vectors },
     true)

/-- Outcome of `handle_upload` as seen by the HTTP caller. -/
inductive UploadResult
  | uploaded (filename : String)
  | indexingFailed
  | loadFailed
deriving DecidableEq

/-- `handle_upload` (src/app.py lines 88-118), after the file checks: save
the file, run `index_file`, then `load_query_engine`; if indexing raises,
the except block returns a 500 with the exception text; if the reload
returns False, return the 500 "gagal memuat query engine" while keeping
whatever engine was bound before. -/
def handle_upload (d : Document) (oc : BuildOutcome) (loadExc : Bool)
    (st : AppState) : AppState × UploadResult :=
  let r := index_file d oc st.disk
  if r.2 then
    let st1 : AppState := { st with disk := r.1 }
    let l := load_query_engine loadExc st1
    if l.2 then (l.1, .uploaded d.docId) else (l.1, .loadFailed)
  else
    ({ st with disk := r.1 }, .indexingFailed)

/-- Modelled from the spec: the external answer-synthesis capability
(`synthesizeAnswer(query, contextNodes) → text`, spec section 6);
deterministic executable model. -/
def synthesizeAnswer (q : String) (ctx : List String) : String :=
  String.intercalate " " ctx ++ " | " ++ q

/-- The response object produced by `query_engine.query(...)`: the
synthesized answer text plus the source nodes it retrieved (library
behavior, spec 4.4). -/
structure QueryResponse where
  answerText : String
  sourceNodes : List Node
deriving DecidableEq

/-- Modelled from the spec: `query_engine.query` (library code, spec 4.4
steps): embed the query text, retrieve the top-K most similar nodes, pass
their texts plus the query to answer synthesis; the response object
carries the retrieved source nodes. -/
def Engine.query (e : Engine) (q : String) : QueryResponse :=
  let hits := e.store.search (embedText q) e.topK
  { answerText := synthesizeAnswer q (hits.map (fun h => h.1.text))
    sourceNodes := hits.map Prod.fst }

/-- `str(response)` at src/app.py line 137: only the answer text. -/
def responseToString (r : QueryResponse) : String := r.answerText

/-- Side effects of a query, recorded for the claims about when the
embedder and the retriever are invoked. -/
inductive QEvent
  | embedCall (q : String)
  | retrieveCall (nodes : List Node)
  | synthCall
deriving DecidableEq

/-- The JSON result of `handle_query`: the 400 "Query engine belum siap"
(not ready), the 400 "Tidak ada kueri yang diberikan" (no query), or the
200 payload, a JSON object given as its key/value fields. -/
inductive QueryResult
  | notReady
  | noQuery
  | success (payload : List (String × String))
deriving DecidableEq

/-- `handle_query` (src/app.py lines 120-145): reject with the not-ready
error when the global `query_engine` is None; read `data.get('query')`
(`none` when the field is missing); reject with the no-query error when
`not user_query` holds, i.e. the field is missing or the empty string;
otherwise run `query_engine.query(user_query)` and return
`jsonify({"response": str(response)})`. Also returns the trace of
embed/retrieve/synthesis calls the query made. -/
def handle_query (st : AppState) (body : Option String) :
    QueryResult × List QEvent :=
  match st.engine with
  | none => (.notReady, [])
  | some eng =>
    match body with
    | none => (.noQuery, [])
    | some q =>
      if q = "" then (.noQuery, [])
      else
        let resp := eng.query q
        (.success [("response", responseToString resp)],
         [.embedCall q, .retrieveCall resp.sourceNodes, .synthCall])

/-- The operations that touch the process state, for the invariant claims:
an upload request, a query request (which never writes the state), and the
startup `load_query_engine` call (src/app.py line 151). -/
inductive Cmd
  | upload (d : Document) (oc : BuildOutcome) (loadExc : Bool)
  | query (body : Option String)
  | reload (loadExc : Bool)

/-- One step of the process: how each operation transforms the state. -/
def step (c : Cmd) (st : AppState) : AppState :=
  match c with
  | .upload d oc le => (handle_upload d oc le st).1
  | .query _ => st
  | .reload le => (load_query_engine le st).1

/-- What a successful in-place load of the current disk would bind:
`load_query_engine` assigns the engine exactly when this is `some`. -/
def diskLoadResult (d : Disk) : Option Engine :=
  match d.docstoreFile, d.vectorFile with
  | some nds, some vs => (loadSnapshot ⟨nds, vs⟩).map (fun s => ⟨s, 5⟩)
  | _, _ => none

/-- The disk after a completed build of document `d`. -/
def diskOf (d : Document) : Disk :=
  ⟨some (persistSnapshot (buildStore d)).docstore,
   some (persistSnapshot (buildStore d)).vectors⟩

/-- Sample document, used by concrete witnesses. -/
def docA : Document := ⟨"a.txt", "cat"⟩

/-- Second sample document (different text length, hence a different
embedding under the model embedder). -/
def docB : Document := ⟨"b.txt", "birds"⟩

/-- The state after one fully successful upload of `docA`. -/
def readyState : AppState := (handle_upload docA .ok false initState).1

/-! ### Helper lemmas -/

/-- Looking up a node id in the serialized vector file finds the vector
stored with that node, provided node ids are pairwise distinct. -/
theorem lookupVec_serialized (l : List (Node × List Int)) (n : Node)
    (v : List Int) (hmem : (n, v) ∈ l)
    (hnodup : (l.map (fun e => e.1.id)).Nodup) :
    lookupVec n.id (l.map (fun e => (e.1.id, e.2))) = some v := by
  induction l with
  | nil => cases hmem
  | cons hd tl ih =>
    rcases List.mem_cons.mp hmem with heq | htl
    · cases heq
      simp [lookupVec]
    · rw [List.map_cons] at hnodup
      have hids := List.nodup_cons.mp hnodup
      have hne : hd.1.id ≠ n.id := by
        intro h
        apply hids.1
        rw [h]
        exact List.mem_map.mpr ⟨(n, v), htl, rfl⟩
      simp only [List.map_cons, lookupVec, if_neg hne]
      exact ih htl hids.2

/-- Re-pairing the serialized docstore with the serialized vector file
recovers the original entry list when node ids are pairwise distinct. -/
theorem pairNodes_serialized (full l : List (Node × List Int))
    (hsub : ∀ p ∈ l, p ∈ full)
    (hnodup : (full.map (fun e => e.1.id)).Nodup) :
    pairNodes (full.map (fun e => (e.1.id, e.2))) (l.map Prod.fst) =
      some l := by
  induction l with
  | nil => rfl
  | cons hd tl ih =>
    have hhd : hd ∈ full := hsub hd (List.mem_cons_self hd tl)
    have hlook : lookupVec hd.1.id (full.map (fun e => (e.1.id, e.2))) =
        some hd.2 := lookupVec_serialized full hd.1 hd.2 hhd hnodup
    have htl := ih (fun p hp => hsub p (List.mem_cons_of_mem hd hp))
    simp only [List.map_cons, pairNodes, hlook, htl]

/-- Persist-then-load round trip: when the store's node ids are pairwise
distinct, loading the persisted snapshot reconstructs the store exactly. -/
theorem loadSnapshot_persistSnapshot (S : VecStore)
    (h : (S.entries.map (fun e => e.1.id)).Nodup) :
    loadSnapshot (persistSnapshot S) = some S := by
  have := pairNodes_serialized S.entries S.entries (fun _ hp => hp) h
  simp only [loadSnapshot, persistSnapshot, this, Option.map_some']

/-- Membership after a ranked insertion comes from the inserted element or
the original list. -/
theorem mem_insertRanked (x y : Node × Int) (l : List (Node × Int))
    (h : y ∈ insertRanked x l) : y = x ∨ y ∈ l := by
  induction l with
  | nil => simpa [insertRanked] using h
  | cons hd tl ih =>
    simp only [insertRanked] at h
    split at h
    · rcases List.mem_cons.mp h with h | h
      · exact Or.inl h
      · exact Or.inr h
    · rcases List.mem_cons.mp h with h | h
      · exact Or.inr (h ▸ List.mem_cons_self hd tl)
      · rcases ih h with h | h
        · exact Or.inl h
        · exact Or.inr (List.mem_cons_of_mem hd h)

/-- Folding ranked insertions over a list only rearranges: membership in
the result comes from the accumulator or the list. -/
theorem mem_foldl_insertRanked (y : Node × Int) (l : List (Node × Int)) :
    ∀ acc, y ∈ l.foldl (fun a x => insertRanked x a) acc →
      y ∈ acc ∨ y ∈ l := by
  induction l with
  | nil => intro acc h; exact Or.inl h
  | cons hd tl ih =>
    intro acc h
    rcases ih (insertRanked hd acc) h with hc | hc
    · rcases mem_insertRanked hd y acc hc with hc | hc
      · exact Or.inr (by rw [hc]; exact List.mem_cons_self hd tl)
      · exact Or.inl hc
    · exact Or.inr (List.mem_cons_of_mem hd hc)

/-- Ranking is a rearrangement: every element of the ranked list is an
element of the input. -/
theorem mem_rankBySim (y : Node × Int) (l : List (Node × Int))
    (h : y ∈ rankBySim l) : y ∈ l := by
  rcases mem_foldl_insertRanked y l [] h with hc | hc
  · cases hc
  · exact hc

/-- Every node a search returns is a node of the store, paired there with
some embedding. -/
theorem search_mem (S : VecStore) (q : List Int) (k : Nat)
    (p : Node × Int) (h : p ∈ S.search q k) :
    ∃ v, (p.1, v) ∈ S.entries := by
  have h1 : p ∈ rankBySim (S.entries.map (fun e => (e.1, similarity q e.2))) :=
    List.take_subset k _ h
  have h2 := mem_rankBySim p _ h1
  rcases List.mem_map.mp h2 with ⟨e, he, hpe⟩
  exact ⟨e.2, by rw [← hpe]; exact he⟩

/-- The node ids of a build are exactly `0, 1, 2, ...`, hence pairwise
distinct. -/
theorem buildStore_ids_nodup (d : Document) :
    ((buildStore d).entries.map (fun e => e.1.id)).Nodup := by
  unfold buildStore chunkDoc
  rw [List.map_map, List.map_map]
  have h : (List.map (fun i : Nat => i)
      (List.range ((d.text.toList.length +
        (indexFileChunkSize - indexFileChunkOverlap) - 1) /
        (indexFileChunkSize - indexFileChunkOverlap)))).Nodup := by
    rw [List.map_id']
    exact List.nodup_range _
  exact h

/-- Every entry of a build carries the built document's id and the
hard-coded chunk parameters. -/
theorem buildStore_node_facts (d : Document) (p : Node × List Int)
    (h : p ∈ (buildStore d).entries) :
    p.1.docId = d.docId ∧ p.1.chunkSize = indexFileChunkSize ∧
      p.1.overlap = indexFileChunkOverlap := by
  rcases List.mem_map.mp h with ⟨n, hn, hp⟩
  rcases List.mem_map.mp hn with ⟨i, _, hni⟩
  subst hp
  subst hni
  exact ⟨rfl, rfl, rfl⟩

/-- A fully successful upload replaces the disk with the new document's
snapshot and binds the engine to exactly the new build with top-K 5. -/
theorem handle_upload_ok (st : AppState) (d : Document) :
    handle_upload d .ok false st =
      (⟨diskOf d, some ⟨buildStore d, 5⟩⟩, .uploaded d.docId) := by
  have hload := loadSnapshot_persistSnapshot (buildStore d) (buildStore_ids_nodup d)
  simp [handle_upload, index_file, load_query_engine, diskOf,
    show (⟨(persistSnapshot (buildStore d)).docstore,
      (persistSnapshot (buildStore d)).vectors⟩ : Snapshot) =
      persistSnapshot (buildStore d) from rfl, hload]

/-- Case analysis of `load_query_engine`: it either fails, returning the
state unchanged with False, or succeeds, binding exactly the engine that
an in-place load of the current disk produces. -/
theorem lqe_cases (exc : Bool) (st : AppState) :
    load_query_engine exc st = (st, false) ∨
    ∃ en, load_query_engine exc st = ({ st with engine := some en }, true) ∧
      diskLoadResult st.disk = some en := by
  cases hd : st.disk.docstoreFile with
  | none => exact Or.inl (by simp [load_query_engine, hd])
  | some nds =>
    cases exc with
    | true => exact Or.inl (by simp [load_query_engine, hd])
    | false =>
      cases hv : st.disk.vectorFile with
      | none => exact Or.inl (by simp [load_query_engine, hd, hv])
      | some vs =>
        cases hl : loadSnapshot ⟨nds, vs⟩ with
        | none => exact Or.inl (by simp [load_query_engine, hd, hv, hl])
        | some s =>
          refine Or.inr ⟨⟨s, 5⟩, by simp [load_query_engine, hd, hv, hl], ?_⟩
          simp [diskLoadResult, hd, hv, hl]

/-! ### Claims -/

/-- Claim C1, counterexample. The claim says a failure partway through a
build never leaves a snapshot visible to load other than the prior one or
none at all. Concretely: start from the state after a successful build of
`docA`, run an upload of `docB` whose persistence fails after the
docstore file is written (persist writes in place, src/app.py line 81,
with no temporary location and swap); the resulting disk is neither the
prior snapshot nor absent, and `load_query_engine` ACCEPTS it (returns
True), binding an engine that matches neither the completed build of
`docA` nor that of `docB`. -/
theorem C1_counterexample :
    readyState.engine = some ⟨buildStore docA, 5⟩ ∧
    (handle_upload docB .failMidPersist false readyState).1.disk ≠
      readyState.disk ∧
    (handle_upload docB .failMidPersist false readyState).1.disk.docstoreFile ≠
      none ∧
    (load_query_engine false
      (handle_upload docB .failMidPersist false readyState).1).2 = true ∧
    (load_query_engine false
      (handle_upload docB .failMidPersist false readyState).1).1.engine ≠
      some ⟨buildStore docA, 5⟩ ∧
    (load_query_engine false
      (handle_upload docB .failMidPersist false readyState).1).1.engine ≠
      some ⟨buildStore docB, 5⟩ := by decide

/-- Claim C1 (amended): a failure before the persist call (reading,
chunking, embedding) leaves the on-disk snapshot exactly as it was, and
the upload reports failure; but persistence writes directly into the live
directory, so a failure partway through persistence has already replaced
the docstore file while the vector file still holds the prior build —
a mixed snapshot that a later load may accept. -/
theorem C1_prepersist_failure_preserves_snapshot (st : AppState)
    (d : Document) (le : Bool) :
    (handle_upload d .failBeforePersist le st).1.disk = st.disk ∧
    (handle_upload d .failBeforePersist le st).2 =
      UploadResult.indexingFailed ∧
    (handle_upload d .failMidPersist le st).1.disk =
      { st.disk with
        docstoreFile := some (persistSnapshot (buildStore d)).docstore } ∧
    (handle_upload d .failMidPersist le st).2 =
      UploadResult.indexingFailed := by
  refine ⟨rfl, rfl, rfl, rfl⟩

/-- Claim C2: a query issued while the global `query_engine` is unbound is
rejected with the not-ready error and performs no retrieval (no events at
all are emitted); once an engine is bound, queries are never rejected with
the not-ready error. -/
theorem C2_not_ready_fails_fast (st : AppState) (body : Option String) :
    (st.engine = none →
      handle_query st body = (QueryResult.notReady, [])) ∧
    (st.engine ≠ none →
      (handle_query st body).1 ≠ QueryResult.notReady) := by
  constructor
  · intro h
    simp [handle_query, h]
  · intro h
    cases he : st.engine with
    | none => exact absurd he h
    | some eng =>
      cases body with
      | none => simp [handle_query, he]
      | some q =>
        by_cases hq : q = ""
        · simp [handle_query, he, hq]
        · simp [handle_query, he, hq]

/-- Claim C2, witness: before any build the query is rejected not-ready
with no retrieval; after a successful upload it is not. -/
theorem C2_witness :
    handle_query initState (some "hi") = (QueryResult.notReady, []) ∧
    (handle_query readyState (some "hi")).1 ≠ QueryResult.notReady :=
  ⟨(C2_not_ready_fails_fast initState (some "hi")).1 rfl,
   (C2_not_ready_fails_fast readyState (some "hi")).2 (by decide)⟩

/-- Claim C3: after two successive fully successful uploads, every node a
query retrieves is a node of the second document's build — it lies in the
second build's store and carries the second document's id. -/
theorem C3_second_build_replaces (st : AppState) (d1 d2 : Document)
    (q : String) (hq : q ≠ "") (ns : List Node)
    (hev : QEvent.retrieveCall ns ∈
      (handle_query
        ((handle_upload d2 .ok false
          ((handle_upload d1 .ok false st).1)).1) (some q)).2)
    (n : Node) (hn : n ∈ ns) :
    (∃ v, (n, v) ∈ (buildStore d2).entries) ∧ n.docId = d2.docId := by
  rw [handle_upload_ok] at hev
  have hns : ns =
      (((buildStore d2).search (embedText q) 5).map Prod.fst) := by
    simpa [handle_query, Engine.query, hq] using hev
  subst hns
  rcases List.mem_map.mp hn with ⟨p, hp, rfl⟩
  rcases search_mem (buildStore d2) (embedText q) 5 p hp with ⟨v, hv⟩
  exact ⟨⟨v, hv⟩, (buildStore_node_facts d2 (p.1, v) hv).1⟩

/-- Claim C3, witness: after uploading `docA` then `docB`, the query
retrieves exactly `docB`'s single node. -/
theorem C3_witness :
    (∃ v, ((⟨0, "b.txt", "birds", 512, 20⟩ : Node), v) ∈
      (buildStore docB).entries) ∧
    Node.docId ⟨0, "b.txt", "birds", 512, 20⟩ = docB.docId :=
  C3_second_build_replaces initState docA docB "hi" (by decide)
    [⟨0, "b.txt", "birds", 512, 20⟩] (by decide)
    ⟨0, "b.txt", "birds", 512, 20⟩ (by decide)

/-- Claim C4: persisting a built store and loading the snapshot yields a
store whose search results are identical — same nodes, same order, same
scores exactly — for every query vector and every top-K. Built stores
have pairwise distinct node ids (`buildStore_ids_nodup`). -/
theorem C4_persist_load_roundtrip (S : VecStore) (q : List Int) (k : Nat)
    (h : (S.entries.map (fun e => e.1.id)).Nodup) :
    ∃ T, loadSnapshot (persistSnapshot S) = some T ∧
      T.search q k = S.search q k :=
  ⟨S, loadSnapshot_persistSnapshot S h, rfl⟩

/-- Claim C4, witness: round trip of the concrete build of `docA`. -/
theorem C4_witness :
    ∃ T, loadSnapshot (persistSnapshot (buildStore docA)) = some T ∧
      T.search [1, 1] 2 = (buildStore docA).search [1, 1] 2 :=
  C4_persist_load_roundtrip (buildStore docA) [1, 1] 2 (by decide)

/-- Claim C5, counterexample. The claim says the missing-snapshot state is
distinguished from genuine load failures, which are errors. In the code
every failure mode of `load_query_engine` — no snapshot at all, a
structurally broken snapshot (vector file missing), and an exception
while loading a good snapshot — returns the very same observable result,
False with the state unchanged; genuine load failures are caught
(src/app.py line 57) and are not errors to the caller. -/
theorem C5_counterexample :
    load_query_engine false initState = (initState, false) ∧
    load_query_engine false
      (⟨⟨some (persistSnapshot (buildStore docA)).docstore, none⟩, none⟩ :
        AppState) =
      ((⟨⟨some (persistSnapshot (buildStore docA)).docstore, none⟩, none⟩ :
        AppState), false) ∧
    load_query_engine true readyState = (readyState, false) := by decide

/-- Claim C5 (amended): when no snapshot exists `load_query_engine`
returns False without raising — and a genuine load failure (an exception
inside the try block) is caught and returns the same False with the state
unchanged; the two conditions are not distinguished in the returned
result, only in log output. -/
theorem C5_absent_and_failures_return_false (st : AppState) (exc : Bool) :
    (st.disk.docstoreFile = none →
      load_query_engine exc st = (st, false)) ∧
    (exc = true → load_query_engine exc st = (st, false)) := by
  constructor
  · intro h
    simp [load_query_engine, h]
  · intro h
    subst h
    cases hd : st.disk.docstoreFile with
    | none => simp [load_query_engine, hd]
    | some nds => simp [load_query_engine, hd]

/-- Claim C5, witness: the absent first-run state and a failing load of an
existing snapshot both return False with the state unchanged. -/
theorem C5_witness :
    load_query_engine false initState = (initState, false) ∧
    load_query_engine true readyState = (readyState, false) :=
  ⟨(C5_absent_and_failures_return_false initState false).1 rfl,
   (C5_absent_and_failures_return_false readyState true).2 rfl⟩

/-- Claim C6, counterexample. The claim says every empty-or-blank query is
rejected before the embedder is invoked. The check at src/app.py line 132
is `if not user_query`, which only catches a missing field or the empty
string: the whitespace-only query " " is truthy, is not rejected, and the
embedder is invoked on it (an embed call appears in the trace). -/
theorem C6_counterexample :
    QEvent.embedCall " " ∈ (handle_query readyState (some " ")).2 ∧
    (handle_query readyState (some " ")).1 ≠ QueryResult.noQuery := by
  decide

/-- Claim C6 (amended): a query whose text is missing or exactly the empty
string is rejected with the no-query error before the embedder is invoked
(the event trace is empty); whitespace-only queries pass the check and
proceed to embedding and retrieval. -/
theorem C6_empty_query_rejected (st : AppState) (e : Engine)
    (h : st.engine = some e) :
    handle_query st none = (QueryResult.noQuery, []) ∧
    handle_query st (some "") = (QueryResult.noQuery, []) := by
  constructor <;> simp [handle_query, h]

/-- Claim C6, witness: on the ready state, the missing and empty queries
are rejected with no embed call. -/
theorem C6_witness :
    handle_query readyState none = (QueryResult.noQuery, []) ∧
    handle_query readyState (some "") = (QueryResult.noQuery, []) :=
  C6_empty_query_rejected readyState ⟨buildStore docA, 5⟩ (by decide)

/-- Claim C7, counterexample. The claim says a successfully answered query
returns the answer text together with the identifiers of the retrieved
nodes. Concretely, the retrieval is non-empty, yet the returned JSON
payload is exactly the single field "response" holding `str(response)`
(src/app.py lines 137-141): no node identifiers are returned. -/
theorem C7_counterexample :
    (handle_query readyState (some "hi")).1 =
      QueryResult.success
        [("response", (Engine.query ⟨buildStore docA, 5⟩ "hi").answerText)] ∧
    (Engine.query ⟨buildStore docA, 5⟩ "hi").sourceNodes ≠ [] := by
  decide

/-- Claim C7 (amended): a successfully answered query returns only the
synthesized answer text, as the single "response" field of the payload;
the retrieved source nodes, although present on the internal response
object, are not included in what `handle_query` returns. -/
theorem C7_success_payload_only_response (st : AppState) (e : Engine)
    (q : String) (he : st.engine = some e) (hq : q ≠ "") :
    (handle_query st (some q)).1 =
      QueryResult.success [("response", (e.query q).answerText)] := by
  simp [handle_query, he, hq, responseToString]

/-- Claim C7, witness: the concrete successful query returns the
single-field payload. -/
theorem C7_witness :
    (handle_query readyState (some "hey")).1 =
      QueryResult.success
        [("response", (Engine.query ⟨buildStore docA, 5⟩ "hey").answerText)] :=
  C7_success_payload_only_response readyState ⟨buildStore docA, 5⟩ "hey"
    (by decide) (by decide)

/-- Claim C8, counterexample. The claim says chunk size and overlap are
caller-configurable. `index_file` hard-codes
`SentenceSplitter(chunk_size=512, chunk_overlap=20)` (src/app.py line 74)
and takes only the file path, so no build, for any document, ever
produces a node with parameters other than 512 and 20. -/
theorem C8_counterexample :
    ¬ ∃ (d : Document) (p : Node × List Int),
      p ∈ (buildStore d).entries ∧
        (p.1.chunkSize ≠ 512 ∨ p.1.overlap ≠ 20) := by
  rintro ⟨d, p, hmem, hne⟩
  rcases buildStore_node_facts d p hmem with ⟨-, hcs, hov⟩
  rcases hne with hne | hne
  · exact hne hcs
  · exact hne hov

/-- Claim C8 (amended): the chunking parameters are chunk size 512 and
overlap 20 as stated, but they are hard-coded at the SentenceSplitter call
in `index_file` and are not configurable by the caller: every node of
every build carries exactly these parameters. -/
theorem C8_chunk_params_fixed (d : Document) (p : Node × List Int)
    (h : p ∈ (buildStore d).entries) :
    indexFileChunkSize = 512 ∧ indexFileChunkOverlap = 20 ∧
      p.1.chunkSize = 512 ∧ p.1.overlap = 20 := by
  rcases buildStore_node_facts d p h with ⟨-, hcs, hov⟩
  exact ⟨rfl, rfl, hcs, hov⟩

/-- Claim C8, witness: the single node of `docA`'s build carries 512/20. -/
theorem C8_witness :
    indexFileChunkSize = 512 ∧ indexFileChunkOverlap = 20 ∧
      Node.chunkSize ⟨0, "a.txt", "cat", 512, 20⟩ = 512 ∧
      Node.overlap ⟨0, "a.txt", "cat", 512, 20⟩ = 20 :=
  C8_chunk_params_fixed docA
    (⟨0, "a.txt", "cat", 512, 20⟩, embedText "cat") (by decide)

/-- Claim C9: if indexing and persistence of an upload succeed but the
subsequent reload of the query engine fails, the upload reports failure
while the on-disk snapshot has already been replaced by the new document's
build and the global `query_engine` still holds the previously bound
engine: persisted state and actively queried state diverge. -/
theorem C9_divergence_after_failed_reload (st : AppState) (e : Engine)
    (d : Document) (he : st.engine = some e) :
    (handle_upload d .ok true st).2 = UploadResult.loadFailed ∧
    (handle_upload d .ok true st).1.disk = diskOf d ∧
    (handle_upload d .ok true st).1.engine = some e := by
  simp [handle_upload, index_file, load_query_engine, diskOf, he]

/-- Claim C9, witness: uploading `docB` over the `docA`-ready state with
the reload failing reports failure, leaves `docB`'s snapshot on disk, and
keeps the engine bound to `docA`'s build. -/
theorem C9_witness :
    (handle_upload docB .ok true readyState).2 = UploadResult.loadFailed ∧
    (handle_upload docB .ok true readyState).1.disk = diskOf docB ∧
    (handle_upload docB .ok true readyState).1.engine =
      some ⟨buildStore docA, 5⟩ :=
  C9_divergence_after_failed_reload readyState ⟨buildStore docA, 5⟩ docB
    (by decide)

/-- Claim C10: the process-wide `query_engine` binding is monotone. It
starts unbound; a failed `load_query_engine` returns the state unchanged;
no operation takes a bound engine back to unbound; and whenever a step
changes the binding, the new binding is exactly what a successful load of
the step's resulting disk produces. -/
theorem C10_engine_binding_monotone :
    initState.engine = none ∧
    (∀ exc st, (load_query_engine exc st).2 = false →
      (load_query_engine exc st).1 = st) ∧
    (∀ c st, st.engine ≠ none → (step c st).engine ≠ none) ∧
    (∀ c st, (step c st).engine = st.engine ∨
      ∃ en, (step c st).engine = some en ∧
        diskLoadResult (step c st).disk = some en) := by
  refine ⟨rfl, ?_, ?_, ?_⟩
  · intro exc st h
    rcases lqe_cases exc st with hc | ⟨en, hc, -⟩
    · rw [hc]
    · rw [hc] at h
      cases h
  · intro c st hne
    cases c with
    | query b => exact hne
    | reload le =>
      rcases lqe_cases le st with hc | ⟨en, hc, -⟩
      · simpa [step, hc] using hne
      · simp [step, hc]
    | upload d oc le =>
      simp only [step, handle_upload]
      cases hIf : (index_file d oc st.disk).2 with
      | false => simpa [hIf] using hne
      | true =>
        rcases lqe_cases le { st with disk := (index_file d oc st.disk).1 }
          with hc | ⟨en, hc, -⟩
        · simpa [hIf, hc] using hne
        · simp [hIf, hc]
  · intro c st
    cases c with
    | query b => exact Or.inl rfl
    | reload le =>
      rcases lqe_cases le st with hc | ⟨en, hc, hld⟩
      · exact Or.inl (by simp [step, hc])
      · exact Or.inr ⟨en, by simp [step, hc], by simpa [step, hc] using hld⟩
    | upload d oc le =>
      cases hIf : (index_file d oc st.disk).2 with
      | false => exact Or.inl (by simp [step, handle_upload, hIf])
      | true =>
        rcases lqe_cases le { st with disk := (index_file d oc st.disk).1 }
          with hc | ⟨en, hc, hld⟩
        · exact Or.inl (by simp [step, handle_upload, hIf, hc])
        · exact Or.inr ⟨en, by simp [step, handle_upload, hIf, hc],
            by simpa [step, handle_upload, hIf, hc] using hld⟩

/-- Claim C10, witness: a query step on the ready state keeps the engine
bound. -/
theorem C10_witness : (step (Cmd.query none) readyState).engine ≠ none :=
  C10_engine_binding_monotone.2.2.1 (Cmd.query none) readyState (by decide)

end Omnibook
